import Mathlib

/-!
Shallow embedding of `src/app.py` (InstagramComments): a single-page data
viewer that loads a spreadsheet into a dataframe, validates the presence of
six required columns, renders the table projected and reordered, and exports
the `user/username` column as a newline-joined list of Instagram URLs.

A dataframe is modelled as an ordered list of named columns; a cell is
`Option Value` where `none` models a pandas missing value (NaN / None).
-/

namespace InstagramApp

/-- A scalar cell value as it appears in the dataframe: string, boolean or
integer. Python string conversion (as used by the f-string in
`export_usernames`) is given by `pyStr`. -/
inductive Value where
  | str (s : String)
  | boolV (b : Bool)
  | intV (n : Int)
deriving DecidableEq, Repr

/-- A cell of the dataframe; `none` is a missing value (pandas NaN/None),
dropped by `dropna`. -/
abbrev Cell := Option Value

/-- A column: its cells, in row order. -/
abbrev Column := List Cell

/-- A dataframe: an ordered list of named columns, as produced by
`pd.read_excel`. -/
abbrev DataFrame := List (String × Column)

/-- Python `str()` of a value, as applied by the f-string
`f"https://www.instagram.com/{username}"`. A string passes through raw. -/
def pyStr : Value → String
  | .str s => s
  | .boolV b => if b then "True" else "False"
  | .intV n => toString n

/-- The column names of a dataframe, in dataframe order, modelling the
pandas attribute surfaced as the columns of a dataframe. -/
def colNames (df : DataFrame) : List String :=
  df.map Prod.fst

/-- Column access by name, modelling indexing a dataframe by a column
name: the column with the given name, if present. -/
def getCol (df : DataFrame) (name : String) : Option Column :=
  df.lookup name

/-- The function `get_required_columns` from `src/app.py`: the list of required column
names, in the order of the source. -/
def get_required_columns : List String :=
  ["user/username",
   "text",
   "comment_like_count",
   "user/is_verified",
   "created_at",
   "user_profile_url"]

/-- The function `get_column_order` from `src/app.py`: the fixed left-to-right display
order passed to `st.dataframe`. -/
def get_column_order : List String :=
  ["user_profile_url",
   "user/username",
   "user/is_verified",
   "comment_like_count",
   "text",
   "created_at"]

/-- Rendering kind of a column, one per `st.column_config.*Column`
constructor used in the source. -/
inductive ColumnKind where
  | link
  | textCol
  | checkbox
  | number
  | date
deriving DecidableEq, Repr

/-- A column display spec: its kind, human-readable label, and the optional
`display_text` and `help` parameters. -/
structure ColumnSpec where
  kind : ColumnKind
  label : String
  displayText : Option String := none
  helpText : Option String := none
deriving DecidableEq, Repr

/-- The function `get_column_config` from `src/app.py`: the column display
configuration,
one entry per configured column name. -/
def get_column_config : List (String × ColumnSpec) :=
  [("user/profile_pic_url",
      { kind := .link, label := "Foto de perfil",
        displayText := some "Ver foto",
        helpText := some "Foto de perfil do usuário" }),
   ("user_profile_url",
      { kind := .link, label := "Perfil do usuário",
        displayText := some "Ver perfil" }),
   ("user/username", { kind := .textCol, label := "Usuário" }),
   ("user/is_verified", { kind := .checkbox, label := "Verificado" }),
   ("comment_like_count", { kind := .number, label := "Curtidas" }),
   ("text", { kind := .textCol, label := "Comentário" }),
   ("created_at", { kind := .date, label := "Data do comentário" })]

/-- The list comprehension in `validate_columns`:
`[col for col in required_columns if col not in df.columns]`. -/
def missing_columns (df : DataFrame) (required_columns : List String) :
    List String :=
  required_columns.filter (fun col => !(colNames df).contains col)

/-- Python representation of a list of strings, as an f-string interpolates
one: bracketed and comma-separated, each element in single quotes. -/
def pyReprStrList (xs : List String) : String :=
  "[" ++ String.intercalate ", " (xs.map (fun s => "\x27" ++ s ++ "\x27"))
    ++ "]"

/-- The function `validate_columns` from `src/app.py`: returns the boolean
result paired
with the `st.error` message emitted, if any. -/
def validate_columns (df : DataFrame) (required_columns : List String) :
    Bool × Option String :=
  let missing := missing_columns df required_columns
  if missing.isEmpty then
    (true, none)
  else
    (false, some ("As seguintes colunas estão faltando no arquivo: "
      ++ pyReprStrList missing))

/-- Projection `df[required_columns]`: the columns named in the list, in
list order (names absent from the dataframe are skipped; in the program
this is only evaluated after validation guarantees all are present). -/
def projectCols (df : DataFrame) (names : List String) : DataFrame :=
  names.filterMap (fun n => (getCol df n).map (fun c => (n, c)))

/-- The `column_order` semantics of `st.dataframe`: columns are displayed
in the given order; a listed name absent from the data is skipped. -/
def reorderCols (data : DataFrame) (order : List String) : DataFrame :=
  order.filterMap (fun n => (data.lookup n).map (fun c => (n, c)))

/-- The function `display_data` from `src/app.py`, reduced to the table it
renders:
the dataframe projected to `required_columns`, then reordered per
`get_column_order`. -/
def display_data (df : DataFrame) (required_columns : List String) :
    DataFrame :=
  reorderCols (projectCols df required_columns) get_column_order

/-- The base URL concatenated before each username. -/
def baseUrl : String := "https://www.instagram.com/"

/-- The URL list of `export_usernames`:
`[f"https://www.instagram.com/{username}" for username in usernames]`
where `usernames = df["user/username"].dropna().tolist()`. -/
def instagram_urls (col : Column) : List String :=
  (col.filterMap id).map (fun username => baseUrl ++ pyStr username)

/-- Outcome of `export_usernames`: either a download button offering a text
payload, or an `st.error` message. -/
inductive ExportOutcome where
  | download (label : String) (data : String) (fileName : String)
      (mime : String)
  | error (msg : String)
deriving DecidableEq, Repr

/-- The function `export_usernames` from `src/app.py`: if the
`user/username` column is
present, offer the newline-joined URLs as `usernames.txt`; otherwise emit
the column-not-found error. -/
def export_usernames (df : DataFrame) : ExportOutcome :=
  match getCol df "user/username" with
  | some col =>
      let urls_text := String.intercalate "\n" (instagram_urls col)
      .download "Exportar user/username como texto" urls_text
        "usernames.txt" "text/plain"
  | none =>
      .error "A coluna \x27user/username\x27 não foi encontrada no arquivo XLSX."

/-- One step of the orchestrated pass in `main`. -/
inductive Step where
  | configurePage
  | fileUploader
  | loadData
  | validateStep
  | displayStep
  | exportStep
deriving DecidableEq, Repr

/-- The full sequence of steps of a pass that never halts. -/
def fullSteps : List Step :=
  [.configurePage, .fileUploader, .loadData, .validateStep,
   .displayStep, .exportStep]

/-- The function `main` from `src/app.py`, as the trace of steps it
executes.
`uploaded = none` models no file provided (`uploaded_file is None`);
`uploaded = some none` models a file whose load returned `None`;
`uploaded = some (some df)` models a successful load. `st.stop()` halts
the trace. -/
def mainTrace (uploaded : Option (Option DataFrame)) : List Step :=
  [Step.configurePage, Step.fileUploader] ++
  match uploaded with
  | none => []
  | some none => [Step.loadData]
  | some (some df) =>
      [Step.loadData, Step.validateStep] ++
      (if (validate_columns df get_required_columns).1 then
        [Step.displayStep, Step.exportStep]
      else [])

/-- Validation succeeds exactly when no required column is missing. -/
theorem validate_fst_eq_true_iff (df : DataFrame) (required : List String) :
    (validate_columns df required).1 = true ↔
      missing_columns df required = [] := by
  unfold validate_columns
  by_cases h : (missing_columns df required).isEmpty
  · simp [h, List.isEmpty_iff.mp h]
  · simp only [h]
    simpa using fun hc => h (by simp [hc])

/-- Membership in the missing list. -/
theorem mem_missing_columns (df : DataFrame) (required : List String)
    (c : String) :
    c ∈ missing_columns df required ↔
      c ∈ required ∧ c ∉ colNames df := by
  unfold missing_columns
  simp [List.contains_eq_any_beq]

/-- If validation passes, each required name resolves to a column. -/
theorem getCol_isSome_of_validate (df : DataFrame)
    (h : (validate_columns df get_required_columns).1 = true) :
    ∀ c ∈ get_required_columns, (getCol df c).isSome := by
  intro c hc
  have hm := (validate_fst_eq_true_iff df get_required_columns).mp h
  have hmem : c ∈ colNames df := by
    by_contra hno
    have : c ∈ missing_columns df get_required_columns :=
      (mem_missing_columns df get_required_columns c).mpr ⟨hc, hno⟩
    simp [hm] at this
  rw [getCol, List.lookup_isSome_iff]
  rcases List.mem_map.mp hmem with ⟨p, hp, hpc⟩
  exact ⟨p, hp, by simp [hpc]⟩

end InstagramApp

open InstagramApp

/-- C10: the three constant tables are mutually consistent: the display
order is a permutation of the required column list (the same six names,
each exactly once), and every required name has an entry in the column
display configuration. -/
theorem constants_consistent :
    get_column_order.Perm get_required_columns ∧
    get_required_columns.Nodup ∧
    ∀ c ∈ get_required_columns, (get_column_config.lookup c).isSome := by
  refine ⟨by decide, by decide, by decide⟩

/-- C3: for every dataframe whose column names include every one of the six
required names, `validate_columns` returns `true` and emits no error. -/
theorem validate_success (df : DataFrame)
    (h : ∀ c ∈ get_required_columns, c ∈ colNames df) :
    validate_columns df get_required_columns = (true, none) := by
  have hm : missing_columns df get_required_columns = [] := by
    unfold missing_columns
    rw [List.filter_eq_nil_iff]
    intro a ha
    simpa [List.contains_eq_any_beq] using h a ha
  simp [validate_columns, hm]

/-- C3 witness: a dataframe with all six required columns (plus an extra,
in a different order) validates successfully. -/
theorem validate_success_witness :
    validate_columns
      [("extra", []), ("created_at", []), ("text", []),
       ("user_profile_url", []), ("user/username", []),
       ("comment_like_count", []), ("user/is_verified", [])]
      get_required_columns = (true, none) :=
  validate_success _ (by decide)

/-- C2: for every dataframe missing a non-empty subset of the required
names, `validate_columns` returns `false`, its error message lists exactly
the missing names, and the missing list contains exactly the required names
absent from the dataframe, in required-list order (it is a sublist of the
required list). -/
theorem validate_missing (df : DataFrame)
    (h : missing_columns df get_required_columns ≠ []) :
    (validate_columns df get_required_columns).1 = false ∧
    (validate_columns df get_required_columns).2 =
      some ("As seguintes colunas estão faltando no arquivo: "
        ++ pyReprStrList (missing_columns df get_required_columns)) ∧
    (∀ c, c ∈ missing_columns df get_required_columns ↔
      c ∈ get_required_columns ∧ c ∉ colNames df) ∧
    List.Sublist (missing_columns df get_required_columns) get_required_columns := by
  refine ⟨?_, ?_, fun c => mem_missing_columns df get_required_columns c,
    List.filter_sublist _⟩
  · exact Bool.eq_false_iff.mpr (fun htrue =>
      h ((validate_fst_eq_true_iff df get_required_columns).mp htrue))
  · unfold validate_columns
    have : ¬ (missing_columns df get_required_columns).isEmpty := by
      simpa [List.isEmpty_iff] using h
    simp [this]

/-- C2 witness: a dataframe with only the `text` column is missing the
other five required names, in required-list order, and fails validation
with the message listing them. -/
theorem validate_missing_witness :
    missing_columns [("text", [])] get_required_columns ≠ [] ∧
    ((validate_columns [("text", [])] get_required_columns).1 = false ∧
     (validate_columns [("text", [])] get_required_columns).2 =
       some ("As seguintes colunas estão faltando no arquivo: "
         ++ pyReprStrList (missing_columns [("text", [])]
              get_required_columns)) ∧
     (∀ c, c ∈ missing_columns [("text", [])] get_required_columns ↔
       c ∈ get_required_columns ∧ c ∉ colNames [("text", [])]) ∧
     List.Sublist (missing_columns [("text", [])] get_required_columns)
       get_required_columns) :=
  ⟨by decide, validate_missing [("text", [])] (by decide)⟩

/-- C6: for every dataframe in which the `user/username` column is absent,
`export_usernames` emits the specific column-not-found error and offers no
download artifact; the function takes no validation input, so this holds
independently of any validation outcome. -/
theorem export_column_absent (df : DataFrame)
    (h : getCol df "user/username" = none) :
    export_usernames df =
      .error "A coluna \x27user/username\x27 não foi encontrada no arquivo XLSX." ∧
    ∀ label payload fn mime,
      export_usernames df ≠ .download label payload fn mime := by
  unfold export_usernames
  rw [h]
  exact ⟨rfl, fun _ _ _ _ hEq => by cases hEq⟩

/-- C6 witness: a dataframe without the `user/username` column produces the
error and no download. -/
theorem export_column_absent_witness :
    export_usernames [("text", [some (Value.str "oi")])] =
      .error "A coluna \x27user/username\x27 não foi encontrada no arquivo XLSX." ∧
    ∀ label payload fn mime,
      export_usernames [("text", [some (Value.str "oi")])] ≠
        .download label payload fn mime :=
  export_column_absent _ (by decide)

/-- C4: for every dataframe containing the `user/username` column, the
export payload is the newline-join, in row order, of one URL per non-null
value, each URL the fixed base prefix concatenated with the raw value; in
particular for values `alice`, null, `bob` the payload is the two-line
string of the claim. -/
theorem export_payload_urls (df : DataFrame) (col : Column)
    (h : getCol df "user/username" = some col) :
    export_usernames df =
      .download "Exportar user/username como texto"
        (String.intercalate "\n"
          ((col.filterMap id).map (fun v => baseUrl ++ pyStr v)))
        "usernames.txt" "text/plain" ∧
    export_usernames
        [("user/username",
          [some (Value.str "alice"), none, some (Value.str "bob")])] =
      .download "Exportar user/username como texto"
        "https://www.instagram.com/alice\nhttps://www.instagram.com/bob"
        "usernames.txt" "text/plain" := by
  constructor
  · unfold export_usernames
    rw [h]
    rfl
  · rfl

/-- C4 witness: the payload equation instantiated at the claim example. -/
theorem export_payload_urls_witness :
    export_usernames
        [("user/username",
          [some (Value.str "alice"), none, some (Value.str "bob")])] =
      .download "Exportar user/username como texto"
        (String.intercalate "\n"
          (([some (Value.str "alice"), none,
             some (Value.str "bob")].filterMap id).map
            (fun v => baseUrl ++ pyStr v)))
        "usernames.txt" "text/plain" ∧
    export_usernames
        [("user/username",
          [some (Value.str "alice"), none, some (Value.str "bob")])] =
      .download "Exportar user/username como texto"
        "https://www.instagram.com/alice\nhttps://www.instagram.com/bob"
        "usernames.txt" "text/plain" :=
  export_payload_urls _ _ rfl

/-- C5 counterexample: an empty-string value in the `user/username` column
is not excluded by `dropna`: its line is the bare base prefix, so the
payload of a one-row table holding the empty string is exactly the bare
base URL. -/
theorem export_empty_value_not_excluded :
    baseUrl ∈ instagram_urls [some (Value.str "")] ∧
    export_usernames [("user/username", [some (Value.str "")])] =
      .download "Exportar user/username como texto" baseUrl
        "usernames.txt" "text/plain" := by
  refine ⟨by decide, rfl⟩

/-- C5 (amended): null values are excluded from the exported URL list —
every line arises from a non-null cell, as the base prefix concatenated
with the value of that cell; empty-string values are not excluded and yield the
bare base prefix. -/
theorem export_null_excluded (col : Column) (u : String)
    (hu : u ∈ instagram_urls col) :
    ∃ v, some v ∈ col ∧ u = baseUrl ++ pyStr v := by
  unfold instagram_urls at hu
  rcases List.mem_map.mp hu with ⟨v, hv, rfl⟩
  rcases List.mem_filterMap.mp hv with ⟨c, hc, hcv⟩
  exact ⟨v, hcv ▸ hc, rfl⟩

/-- C5 witness: the single line exported from a one-value column arises
from that non-null value. -/
theorem export_null_excluded_witness :
    ∃ v, some v ∈ [some (Value.str "alice")] ∧
      "https://www.instagram.com/alice" = baseUrl ++ pyStr v :=
  export_null_excluded [some (Value.str "alice")]
    "https://www.instagram.com/alice" (by decide)

/-- C9: for every dataframe containing the `user/username` column with zero
non-null values, `export_usernames` offers an empty payload as a download
named `usernames.txt` and raises no error. -/
theorem export_all_null (df : DataFrame) (col : Column)
    (h : getCol df "user/username" = some col)
    (hnull : ∀ c ∈ col, c = none) :
    export_usernames df =
      .download "Exportar user/username como texto" "" "usernames.txt"
        "text/plain" ∧
    ∀ msg, export_usernames df ≠ .error msg := by
  have hfm : col.filterMap id = [] := by
    rw [List.filterMap_eq_nil_iff]
    intro c hc
    simp [hnull c hc]
  unfold export_usernames
  rw [h]
  constructor
  · simp [instagram_urls, hfm, String.intercalate]
  · intro msg hEq
    cases hEq

/-- C9 witness: a `user/username` column of two null cells exports the
empty payload. -/
theorem export_all_null_witness :
    export_usernames [("user/username", [none, none])] =
      .download "Exportar user/username como texto" "" "usernames.txt"
        "text/plain" ∧
    ∀ msg, export_usernames [("user/username", [none, none])] ≠
      .error msg :=
  export_all_null _ [none, none] (by decide) (by decide)

/-- C1: for every dataframe that passes validation, the rendered table has
exactly the six required column names, in the fixed display order
regardless of the dataframe's native column order, and each rendered
column holds the cells of the dataframe for that name: the rendered table
is the projection of the loaded table restricted to the required names,
reordered per the display order. -/
theorem render_is_ordered_projection (df : DataFrame)
    (h : (validate_columns df get_required_columns).1 = true) :
    (display_data df get_required_columns).map Prod.fst = get_column_order ∧
    ∀ p ∈ display_data df get_required_columns, getCol df p.1 = some p.2 := by
  have hs := getCol_isSome_of_validate df h
  obtain ⟨c1, e1⟩ :=
    Option.isSome_iff_exists.mp (hs "user/username" (by decide))
  obtain ⟨c2, e2⟩ := Option.isSome_iff_exists.mp (hs "text" (by decide))
  obtain ⟨c3, e3⟩ :=
    Option.isSome_iff_exists.mp (hs "comment_like_count" (by decide))
  obtain ⟨c4, e4⟩ :=
    Option.isSome_iff_exists.mp (hs "user/is_verified" (by decide))
  obtain ⟨c5, e5⟩ := Option.isSome_iff_exists.mp (hs "created_at" (by decide))
  obtain ⟨c6, e6⟩ :=
    Option.isSome_iff_exists.mp (hs "user_profile_url" (by decide))
  have hproj : projectCols df get_required_columns =
      [("user/username", c1), ("text", c2), ("comment_like_count", c3),
       ("user/is_verified", c4), ("created_at", c5),
       ("user_profile_url", c6)] := by
    simp [projectCols, get_required_columns, e1, e2, e3, e4, e5, e6]
  have hdisp : display_data df get_required_columns =
      [("user_profile_url", c6), ("user/username", c1),
       ("user/is_verified", c4), ("comment_like_count", c3),
       ("text", c2), ("created_at", c5)] := by
    rw [display_data, hproj]
    rfl
  rw [hdisp]
  refine ⟨rfl, ?_⟩
  intro p hp
  simp only [List.mem_cons, List.not_mem_nil, or_false] at hp
  rcases hp with rfl | rfl | rfl | rfl | rfl | rfl <;>
    first
      | exact e1 | exact e2 | exact e3 | exact e4 | exact e5 | exact e6

/-- C1 witness: a valid dataframe given in a scrambled native order renders
the six required columns in the fixed display order with its own cells. -/
theorem render_is_ordered_projection_witness :
    (display_data
        [("created_at", [some (Value.str "2024-01-01")]),
         ("extra", [none]),
         ("user/username", [some (Value.str "alice")]),
         ("user_profile_url", [some (Value.str "https://example.com/a")]),
         ("comment_like_count", [some (Value.intV 3)]),
         ("text", [some (Value.str "hello")]),
         ("user/is_verified", [some (Value.boolV true)])]
        get_required_columns).map Prod.fst = get_column_order ∧
    ∀ p ∈ display_data
        [("created_at", [some (Value.str "2024-01-01")]),
         ("extra", [none]),
         ("user/username", [some (Value.str "alice")]),
         ("user_profile_url", [some (Value.str "https://example.com/a")]),
         ("comment_like_count", [some (Value.intV 3)]),
         ("text", [some (Value.str "hello")]),
         ("user/is_verified", [some (Value.boolV true)])]
        get_required_columns,
      getCol
        [("created_at", [some (Value.str "2024-01-01")]),
         ("extra", [none]),
         ("user/username", [some (Value.str "alice")]),
         ("user_profile_url", [some (Value.str "https://example.com/a")]),
         ("comment_like_count", [some (Value.intV 3)]),
         ("text", [some (Value.str "hello")]),
         ("user/is_verified", [some (Value.boolV true)])] p.1 = some p.2 :=
  render_is_ordered_projection _ (by decide)

/-- C7: after successful validation the export error branch is unreachable:
the `user/username` column is present and `export_usernames` never returns
an error. -/
theorem export_error_unreachable (df : DataFrame)
    (h : (validate_columns df get_required_columns).1 = true) :
    (getCol df "user/username").isSome ∧
    ∀ msg, export_usernames df ≠ .error msg := by
  have hs := getCol_isSome_of_validate df h "user/username" (by decide)
  refine ⟨hs, ?_⟩
  intro msg hEq
  obtain ⟨col, e⟩ := Option.isSome_iff_exists.mp hs
  unfold export_usernames at hEq
  rw [e] at hEq
  simp at hEq

/-- C7 witness: a dataframe with exactly the six required columns validates
and its export takes the download branch, never the error branch. -/
theorem export_error_unreachable_witness :
    (getCol
        [("user/username", [some (Value.str "alice")]),
         ("text", [some (Value.str "hello")]),
         ("comment_like_count", [some (Value.intV 1)]),
         ("user/is_verified", [some (Value.boolV false)]),
         ("created_at", [some (Value.str "2024-01-01")]),
         ("user_profile_url", [some (Value.str "https://example.com/a")])]
        "user/username").isSome ∧
    ∀ msg, export_usernames
        [("user/username", [some (Value.str "alice")]),
         ("text", [some (Value.str "hello")]),
         ("comment_like_count", [some (Value.intV 1)]),
         ("user/is_verified", [some (Value.boolV false)]),
         ("created_at", [some (Value.str "2024-01-01")]),
         ("user_profile_url", [some (Value.str "https://example.com/a")])] ≠
      .error msg :=
  export_error_unreachable _ (by decide)

/-- C8: the orchestrated pass short-circuits on first failure: every trace
is an initial segment of the full step sequence; when no file is provided
the trace stops right after the uploader prompt (no load, validation,
render or export step); when the load yields no dataframe the trace stops
right after the load step (no validation, render or export step); when
validation fails the trace stops right after the validation step (no
render or export step); under any of the three triggers neither the
renderer nor the exporter step occurs; and when the exporter step occurs
the trace ends with the renderer step immediately followed by the exporter
step. -/
theorem main_short_circuits (u : Option (Option DataFrame)) :
    (∃ t, fullSteps = mainTrace u ++ t) ∧
    (u = none → mainTrace u = [Step.configurePage, Step.fileUploader]) ∧
    (u = some none →
      mainTrace u = [Step.configurePage, Step.fileUploader,
        Step.loadData]) ∧
    (∀ df, u = some (some df) →
      (validate_columns df get_required_columns).1 = false →
      mainTrace u = [Step.configurePage, Step.fileUploader, Step.loadData,
        Step.validateStep]) ∧
    ((u = none ∨ u = some none ∨
      (∃ df, u = some (some df) ∧
        (validate_columns df get_required_columns).1 = false)) →
      Step.displayStep ∉ mainTrace u ∧ Step.exportStep ∉ mainTrace u) ∧
    (Step.exportStep ∈ mainTrace u →
      ∃ pre, mainTrace u = pre ++ [Step.displayStep, Step.exportStep]) := by
  refine ⟨?_, ?_, ?_, ?_, ?_, ?_⟩
  · match u with
    | none =>
        exact ⟨[.loadData, .validateStep, .displayStep, .exportStep], rfl⟩
    | some none => exact ⟨[.validateStep, .displayStep, .exportStep], rfl⟩
    | some (some df) =>
        by_cases hv : (validate_columns df get_required_columns).1 = true
        · exact ⟨[], by simp [mainTrace, fullSteps, hv]⟩
        · refine ⟨[.displayStep, .exportStep], ?_⟩
          simp [mainTrace, fullSteps, Bool.eq_false_iff.mpr hv]
  · rintro rfl
    rfl
  · rintro rfl
    rfl
  · rintro df rfl hv
    simp [mainTrace, hv]
  · rintro (rfl | rfl | ⟨df, rfl, hv⟩)
    · decide
    · decide
    · constructor <;> simp [mainTrace, hv]
  · intro hmem
    match u with
    | none => exact absurd hmem (by decide)
    | some none => exact absurd hmem (by decide)
    | some (some df) =>
        by_cases hv : (validate_columns df get_required_columns).1 = true
        · refine ⟨[.configurePage, .fileUploader, .loadData,
            .validateStep], ?_⟩
          simp [mainTrace, hv]
        · rw [mainTrace] at hmem
          simp [Bool.eq_false_iff.mpr hv] at hmem

/-- C8 witness: when the load yields no dataframe, the trace stops right
after the load step, so in particular neither the renderer nor the
exporter step occurs. -/
theorem main_short_circuits_witness :
    mainTrace (some none) =
      [Step.configurePage, Step.fileUploader, Step.loadData] ∧
    (Step.displayStep ∉ mainTrace (some none) ∧
     Step.exportStep ∉ mainTrace (some none)) :=
  ⟨(main_short_circuits (some none)).2.2.1 rfl,
   (main_short_circuits (some none)).2.2.2.2.1 (Or.inr (Or.inl rfl))⟩
